import Mathlib

/-!
Verification development for the DualShock controller-manager layer
(`src/js/controller-manager.ts`).  The TypeScript code is shallowly
embedded: raw input-report buffers become `List Nat` of byte values,
`DataView.getUint8` becomes an `Option`-returning lookup (a `none`
models the `RangeError` a short buffer raises, the spec's
`MalformedReport`), JavaScript numbers on the stick path become exact
rationals (every intermediate of the stick formula is representable, so
the rational model and the double model agree on all observable
values), and the manager's mutable fields become explicit state records
threaded through the functions.  Driver calls (`calibrateRangeEnd`,
`nvsLock`, `parseBatteryStatus`, ...) are inputs to the embedded
functions, since the per-model drivers live outside the analysed
sources.
-/

namespace DSTools

/-- Result value returned by driver operations (`CalibrationResult` /
`NvResult` in the sources): `ok` flag plus optional numeric device code
and optional error text.  `code = none` models an absent (`undefined`)
field. -/
structure CalibResult where
  ok : Bool
  code : Option Nat := none
  error : Option String := none
deriving DecidableEq

/-- Response shape of `calibrateRangeOnClose` / `calibrateSticks`
(`CalibrationResponse` in the sources). -/
structure CalibrationResponse where
  success : Bool
  message : String
deriving DecidableEq

/-- Embedded `EXPECTED_CALIBRATION_ERROR_CODES = [3, 4, 5]` from the sources:
device codes on range-calibration end that are remapped to success. -/
def EXPECTED_CALIBRATION_ERROR_CODES : List Nat := [3, 4, 5]

/-- JavaScript truthiness of an optional numeric field:
`undefined` and `0` are falsy. -/
def jsTruthyNum : Option Nat → Bool
  | none => false
  | some n => n != 0

/-- JavaScript `String(x)` for an optional string: `undefined` renders
as `"undefined"`. -/
def jsString : Option String → String
  | none => "undefined"
  | some s => s

/-- JavaScript `x || ""` for an optional string. -/
def jsStringOrEmpty : Option String → String
  | none => ""
  | some s => s

/-- JavaScript optional chaining `res?.ok` where `res` may be
`undefined`. -/
def jsOk : Option CalibResult → Bool
  | none => false
  | some r => r.ok

/-- JavaScript optional chaining `res?.code`. -/
def jsCode (res : Option CalibResult) : Option Nat :=
  res.bind (·.code)

/-- JavaScript optional chaining `res?.error`. -/
def jsError (res : Option CalibResult) : Option String :=
  res.bind (·.error)

/-- Embedded `setHasChangesToWrite` from the sources, restricted to its state
effect on the `has_changes_to_write` field (the early `return` on an
unchanged value skips only the UI toggling): the field starts out
`null` (`none`) and is set to the requested boolean. -/
def setHasChangesToWrite (hasChanges : Bool) (cur : Option Bool) : Option Bool :=
  if some hasChanges = cur then cur else some hasChanges

/-- Embedded `calibrateRangeOnClose` from the sources.  `l` is the injected
translation hook, `res` the value the driver's `calibrateRangeEnd`
resolved to (optional, matching the `res?.` accesses), `flag` the
manager's `has_changes_to_write` field.  Returns the
`CalibrationResponse` and the updated flag. -/
def calibrateRangeOnClose (l : String → String) (res : Option CalibResult)
    (flag : Option Bool) : CalibrationResponse × Option Bool :=
  if jsOk res then
    ({ success := true, message := l "Range calibration completed" },
     setHasChangesToWrite true flag)
  else
    if jsTruthyNum (jsCode res) &&
        decide ((jsCode res).getD 0 ∈ EXPECTED_CALIBRATION_ERROR_CODES) then
      ({ success := true, message := l "Range calibration window closed" }, flag)
    else
      let msg :=
        if jsTruthyNum (jsCode res) then
          l "Range calibration failed: " ++ l "Error " ++ toString ((jsCode res).getD 0)
        else
          l "Range calibration failed: " ++ jsStringOrEmpty (jsError res)
      ({ success := false, message := msg }, flag)

/-- Embedded `NvStatus` from the sources (the controller type
declarations): required `status` string and `locked` flag, optional
`mode`, `device`, `code`, `raw` and `error`.  Optional TypeScript
fields become `Option`s (`none` models an absent field).  Its contents
are opaque to the manager logic verified here: `queryNvStatus` only
forwards the value. -/
structure NvStatus where
  status : String
  locked : Bool
  mode : Option String := none
  device : Option String := none
  code : Option Nat := none
  raw : Option Nat := none
  error : Option String := none
deriving DecidableEq

/-- Embedded `NvResult` from the sources (the controller type
declarations): the driver answer shape of `nvsLock` / `nvsUnlock`, an
`ok` flag with an optional error text. -/
structure NvResult where
  ok : Bool
  error : Option String := none
deriving DecidableEq

/-- The observable effect of the manager's NV-status callback wiring:
`queryNvStatus` forwards the freshly queried status to
`handleNvStatusUpdate`; we record the last value so forwarded. -/
structure NvCallbackState where
  lastHandled : Option NvStatus
deriving DecidableEq

/-- Embedded `queryNvStatus` from the sources: query the driver (its answer is
the input `nv`), forward it to the UI callback, return it. -/
def queryNvStatus (nv : NvStatus) (st : NvCallbackState) : NvCallbackState × NvStatus :=
  ({ st with lastHandled := some nv }, nv)

/-- Embedded `nvsLock` from the sources: call the driver (`res` is its
`NvResult` answer); on a non-ok result throw an `Error` built from the
original failure detail; on success re-query NVS status (the device
would answer `nvFromDevice`) and return the driver result.  The
`Except.error` case models the thrown exception; the state component
is returned alongside to expose the (absent) callback effect on the
failure path. -/
def nvsLock (l : String → String) (res : NvResult) (nvFromDevice : NvStatus)
    (st : NvCallbackState) : NvCallbackState × Except String NvResult :=
  if res.ok then
    ((queryNvStatus nvFromDevice st).1, Except.ok res)
  else
    (st, Except.error (l "NVS Lock failed: " ++ jsString res.error))

/-! ### Input decoding and the state tracker -/

/-- Embedded `DataView.getUint8`: read byte `i` of the report buffer; `none`
models the `RangeError` thrown on an out-of-bounds read. -/
def getUint8 (data : List Nat) (i : Nat) : Option Nat :=
  data.get? i

/-- JavaScript `Math.round`: round half towards positive infinity,
`fun x => Int.floor (x + 0.5)`.  Defined through the computable
`Rat.floor` so that witnesses evaluate by `decide`;
`jsRound_eq_round` below identifies it with Mathlib's `round`. -/
def jsRound (x : ℚ) : ℤ :=
  Rat.floor (x + 1 / 2)

/-- The stick byte mapping from `_recordButtonStates`:
`Math.round(((v - 127.5) / 128) * 100) / 100`.  Every intermediate of
the JavaScript double computation is exact (halves and small dyadic
rationals), so the rational value determines the double bit-exactly. -/
def stickValue (v : Nat) : ℚ :=
  (jsRound (((v : ℚ) - 127.5) / 128 * 100) : ℤ) / 100

/-- Embedded `StickPosition` from the sources. -/
structure StickPosition where
  x : ℚ
  y : ℚ
deriving DecidableEq

/-- Embedded `StickStates` from the sources. -/
structure StickStates where
  left : StickPosition
  right : StickPosition
deriving DecidableEq

/-- Embedded `_sticksChanged` from the sources: exact inequality on any of the
four components. -/
def sticksChanged (current newValues : StickStates) : Bool :=
  current.left.x != newValues.left.x ||
  current.left.y != newValues.left.y ||
  current.right.x != newValues.right.x ||
  current.right.y != newValues.right.y

/-- The manager's `button_states` snapshot.  The fixed keys of the
JavaScript object (`sticks`, the analog triggers, the d-pad
directions) are record fields; the model-specific button names live in
an insertion-ordered association list, mirroring dynamic property
assignment.  `none` models a key not yet present (`undefined`). -/
structure ButtonStates where
  sticks : StickStates
  l2_analog : Option Nat := none
  r2_analog : Option Nat := none
  up : Option Bool := none
  down : Option Bool := none
  left : Option Bool := none
  right : Option Bool := none
  buttons : List (String × Bool) := []
deriving DecidableEq

/-- The initial `button_states` built in the constructor: centred
sticks, no other keys. -/
def initialButtonStates : ButtonStates :=
  { sticks := ⟨⟨0, 0⟩, ⟨0, 0⟩⟩ }

/-- The change-set built by one `_recordButtonStates` call
(`InputChanges` in the sources); starts out empty each call. -/
structure InputChanges where
  sticks : Option StickStates := none
  l2_analog : Option Nat := none
  r2_analog : Option Nat := none
  up : Option Bool := none
  down : Option Bool := none
  left : Option Bool := none
  right : Option Bool := none
  buttons : List (String × Bool) := []
deriving DecidableEq

/-- The empty change-set (`const changes = \x7b\x7d`). -/
def emptyChanges : InputChanges := {}

/-- JavaScript property lookup on the dynamic part of the snapshot. -/
def lookupBtn (l : List (String × Bool)) (k : String) : Option Bool :=
  List.lookup k l

/-- JavaScript property assignment on the dynamic part of the
snapshot: overwrite in place if the key exists, else append. -/
def setBtn (l : List (String × Bool)) (k : String) (v : Bool) : List (String × Bool) :=
  match l with
  | [] => [(k, v)]
  | (k', v') :: rest => if k' = k then (k, v) :: rest else (k', v') :: setBtn rest k v

/-- Embedded `ButtonMapping` from the sources: one entry of a model's
`BUTTON_MAP`. -/
structure ButtonMapping where
  name : String
  byte : Nat
  mask : Nat
deriving DecidableEq

/-- Embedded `dpadDirections` from the sources (iteration order of the d-pad
update loop, also used to skip d-pad names in `BUTTON_MAP`). -/
def dpadDirections : List String := ["up", "right", "down", "left"]

/-- Stick section of `_recordButtonStates`: diff the freshly decoded
stick values against the snapshot, updating snapshot and change-set
on inequality. -/
def stickPhase (newSticks : StickStates) (st : ButtonStates) (ch : InputChanges) :
    ButtonStates × InputChanges :=
  if sticksChanged st.sticks newSticks then
    ({ st with sticks := newSticks }, { ch with sticks := some newSticks })
  else (st, ch)

/-- First iteration of the analog-trigger loop (`l2_analog`). -/
def l2Phase (val : Nat) (st : ButtonStates) (ch : InputChanges) :
    ButtonStates × InputChanges :=
  if some val != st.l2_analog then
    ({ st with l2_analog := some val }, { ch with l2_analog := some val })
  else (st, ch)

/-- Second iteration of the analog-trigger loop (`r2_analog`). -/
def r2Phase (val : Nat) (st : ButtonStates) (ch : InputChanges) :
    ButtonStates × InputChanges :=
  if some val != st.r2_analog then
    ({ st with r2_analog := some val }, { ch with r2_analog := some val })
  else (st, ch)

/-- Embedded `dpad_map.up` from the sources: hat ∈ \x7b0, 1, 7\x7d. -/
def hatUp (hat : Nat) : Bool := hat == 0 || hat == 1 || hat == 7

/-- Embedded `dpad_map.right` from the sources: hat ∈ \x7b1, 2, 3\x7d. -/
def hatRight (hat : Nat) : Bool := hat == 1 || hat == 2 || hat == 3

/-- Embedded `dpad_map.down` from the sources: hat ∈ \x7b3, 4, 5\x7d. -/
def hatDown (hat : Nat) : Bool := hat == 3 || hat == 4 || hat == 5

/-- Embedded `dpad_map.left` from the sources: hat ∈ \x7b5, 6, 7\x7d. -/
def hatLeft (hat : Nat) : Bool := hat == 5 || hat == 6 || hat == 7

/-- D-pad section of `_recordButtonStates`: derive the four directions
from the 4-bit hat value and diff them in the loop order
`up, right, down, left`. -/
def dpadPhase (hat : Nat) (st : ButtonStates) (ch : InputChanges) :
    ButtonStates × InputChanges :=
  let p1 := if st.up != some (hatUp hat) then
      ({ st with up := some (hatUp hat) }, { ch with up := some (hatUp hat) }) else (st, ch)
  let p2 := if p1.1.right != some (hatRight hat) then
      ({ p1.1 with right := some (hatRight hat) }, { p1.2 with right := some (hatRight hat) }) else p1
  let p3 := if p2.1.down != some (hatDown hat) then
      ({ p2.1 with down := some (hatDown hat) }, { p2.2 with down := some (hatDown hat) }) else p2
  if p3.1.left != some (hatLeft hat) then
    ({ p3.1 with left := some (hatLeft hat) }, { p3.2 with left := some (hatLeft hat) }) else p3

/-- Embedded `BUTTON_MAP` loop of `_recordButtonStates`: skip d-pad names, read
the mapped byte (a failed read aborts the whole call, returning the
partially updated state with the `false` flag), mask, diff, update.
The `Bool` reports whether every read succeeded. -/
def buttonPhase (data : List Nat) :
    List ButtonMapping → ButtonStates → InputChanges → (ButtonStates × InputChanges) × Bool
  | [], st, ch => ((st, ch), true)
  | btn :: rest, st, ch =>
    if btn.name ∈ dpadDirections then buttonPhase data rest st ch
    else
      match getUint8 data btn.byte with
      | none => ((st, ch), false)
      | some b =>
        let pressed : Bool := (b &&& btn.mask) != 0
        if lookupBtn st.buttons btn.name != some pressed then
          buttonPhase data rest
            { st with buttons := setBtn st.buttons btn.name pressed }
            { ch with buttons := setBtn ch.buttons btn.name pressed }
        else buttonPhase data rest st ch

/-- Embedded `_recordButtonStates` from the sources.  Returns the snapshot as
left behind by the call together with `some` change-set on success, or
`none` when a buffer read threw (the snapshot component then reflects
the updates already performed before the throw, exactly as the
JavaScript mutation order does). -/
def recordButtonStates (data : List Nat) (BUTTON_MAP : List ButtonMapping)
    (dpad_byte l2_analog_byte r2_analog_byte : Nat) (st : ButtonStates) :
    ButtonStates × Option InputChanges :=
  match getUint8 data 0, getUint8 data 1, getUint8 data 2, getUint8 data 3 with
  | some b0, some b1, some b2, some b3 =>
    let newSticks : StickStates :=
      ⟨⟨stickValue b0, stickValue b1⟩, ⟨stickValue b2, stickValue b3⟩⟩
    let p1 := stickPhase newSticks st emptyChanges
    (match getUint8 data l2_analog_byte with
    | none => (p1.1, none)
    | some lv =>
      let p2 := l2Phase lv p1.1 p1.2
      match getUint8 data r2_analog_byte with
      | none => (p2.1, none)
      | some rv =>
        let p3 := r2Phase rv p2.1 p2.2
        match getUint8 data dpad_byte with
        | none => (p3.1, none)
        | some hb =>
          let p4 := dpadPhase (hb &&& 0x0f) p3.1 p3.2
          match buttonPhase data BUTTON_MAP p4.1 p4.2 with
          | ((st', ch'), true) => (st', some ch')
          | ((st', _), false) => (st', none))
  | _, _, _, _ => (st, none)

/-- Embedded `TouchPoint` from the sources. -/
structure TouchPoint where
  active : Bool
  id : Nat
  x : Nat
  y : Nat
deriving DecidableEq

/-- One iteration of the `_parseTouchPoints` loop: the four bytes at
`base`, the active bit, 7-bit contact id and the two 12-bit
coordinates. -/
def parseTouchPoint (data : List Nat) (base : Nat) : Option TouchPoint :=
  match getUint8 data base, getUint8 data (base + 1),
        getUint8 data (base + 2), getUint8 data (base + 3) with
  | some b0, some b1, some b2, some b3 =>
    some { active := (b0 &&& 0x80) == 0
           id := b0 &&& 0x7f
           x := ((b2 &&& 0x0f) <<< 8) ||| b1
           y := (b3 <<< 4) ||| (b2 >>> 4) }
  | _, _, _, _ => none

/-- Embedded `_parseTouchPoints` from the sources: the loop over
`TOUCHPAD_MAX_POINTS = 2` points of `TOUCHPAD_BYTES_PER_POINT = 4`
bytes each, unrolled. -/
def parseTouchPoints (data : List Nat) (offset : Nat) : Option (List TouchPoint) :=
  match parseTouchPoint data (offset + 0 * 4), parseTouchPoint data (offset + 1 * 4) with
  | some p0, some p1 => some [p0, p1]
  | _, _ => none

/-- Embedded `BatteryInfo` from the sources: the driver's
`parseBatteryStatus` result. -/
structure BatteryInfo where
  bat_capacity : Nat
  cable_connected : Bool
  is_charging : Bool
  is_error : Bool
deriving DecidableEq

/-- Embedded `BatteryStatus` from the sources: the rendered battery state the
manager stores and republishes. -/
structure BatteryStatus where
  bat_txt : String
  changed : Bool
  bat_capacity : Nat
  cable_connected : Bool
  is_charging : Bool
  is_error : Bool
deriving DecidableEq

/-- Embedded `_batteryPercentToText` from the sources. -/
def batteryPercentToText (l : String → String) (info : BatteryInfo) : String :=
  if info.is_error then
    "<font color=\"red\">" ++ l "error" ++ "</font>"
  else
    let batteryIcons : List (Nat × String) :=
      [(20, "fa-battery-empty"), (40, "fa-battery-quarter"),
       (60, "fa-battery-half"), (80, "fa-battery-three-quarters")]
    let icon_txt :=
      ((batteryIcons.find? (fun item => info.bat_capacity < item.1)).map (·.2)).getD
        "fa-battery-full"
    let icon_full := "<i class=\"fa-solid " ++ icon_txt ++ "\"></i>"
    let bolt_txt := if info.is_charging then "<i class=\"fa-solid fa-bolt\"></i>" else ""
    String.intercalate " " [toString info.bat_capacity ++ "%", icon_full, bolt_txt]

/-- Embedded `InputConfig` from the sources: the per-model layout descriptor. -/
structure InputConfig where
  buttonMap : List ButtonMapping
  dpadByte : Nat
  l2AnalogByte : Nat
  r2AnalogByte : Nat
  touchpadOffset : Option Nat := none
deriving DecidableEq

/-- Embedded `ProcessedInputResult` from the sources, minus the echoed-back
`inputConfig` (a constant of the layout). -/
structure ProcessedInputResult where
  changes : InputChanges
  touchPoints : List TouchPoint
  batteryStatus : BatteryStatus
deriving DecidableEq

/-- The manager state mutated by the input path: the snapshot, the
stored touch points, the stored battery status and the last rendered
battery text. -/
structure ManagerInputState where
  button_states : ButtonStates
  touchPoints : List TouchPoint := []
  batteryStatus : BatteryStatus :=
    { bat_txt := "", changed := false, bat_capacity := 0,
      cable_connected := false, is_charging := false, is_error := false }
  lastBatteryText : String := ""
deriving DecidableEq

/-- The manager state right after construction. -/
def initialManagerInputState : ManagerInputState :=
  { button_states := initialButtonStates }

/-- Embedded `_parseBatteryStatus` from the sources: render the driver's
battery info, diff the rendered text against the remembered one,
remember it.  Returns the new `(batteryStatus, lastBatteryText)`
pair. -/
def parseBatteryStatusStep (l : String → String) (info : BatteryInfo)
    (lastText : String) : BatteryStatus × String :=
  let bat_txt := batteryPercentToText l info
  let changed : Bool := bat_txt != lastText
  ({ bat_txt := bat_txt, changed := changed, bat_capacity := info.bat_capacity,
     cable_connected := info.cable_connected, is_charging := info.is_charging,
     is_error := info.is_error }, bat_txt)

/-- Embedded `processControllerInput` from the sources.  `parseBattery` stands
for the driver's model-specific `parseBatteryStatus` (a pure function
of the buffer; `none` models a read failure inside it).  A `none`
result models the propagated exception; the state component again
reflects the mutations already performed. -/
def processControllerInput (cfg : InputConfig) (parseBattery : List Nat → Option BatteryInfo)
    (l : String → String) (data : List Nat) (st : ManagerInputState) :
    ManagerInputState × Option ProcessedInputResult :=
  let rec1 := recordButtonStates data cfg.buttonMap cfg.dpadByte cfg.l2AnalogByte
    cfg.r2AnalogByte st.button_states
  match rec1.2 with
  | none => ({ st with button_states := rec1.1 }, none)
  | some changes =>
    let touchRes : Option (List TouchPoint) :=
      if jsTruthyNum cfg.touchpadOffset then
        parseTouchPoints data (cfg.touchpadOffset.getD 0)
      else some st.touchPoints
    match touchRes with
    | none => ({ st with button_states := rec1.1 }, none)
    | some tp =>
      match parseBattery data with
      | none => ({ st with button_states := rec1.1, touchPoints := tp }, none)
      | some info =>
        let bat := parseBatteryStatusStep l info st.lastBatteryText
        ({ button_states := rec1.1, touchPoints := tp, batteryStatus := bat.1,
           lastBatteryText := bat.2 },
         some { changes := changes, touchPoints := tp, batteryStatus := bat.1 })

/-! ### Automated stick-center calibration -/

/-- Progress value reported after sample `i` (0-based) of
`calibrateSticks`: `Math.round(30 + ((i + 1) / sampleCount) * 50)`.
For `sampleCount = 5` every intermediate double is close enough to the
rational value that the rounded results coincide. -/
def sampleProgress (sampleCount i : Nat) : ℤ :=
  jsRound ((30 : ℚ) + ((i : ℚ) + 1) / (sampleCount : ℚ) * 50)

/-- The sampling loop of `calibrateSticks` over the index list
`List.range sampleCount` (the `for` loop of the sources): each
iteration samples (the driver answers `sampleRes i`) and on success
reports its progress value; a failure aborts the loop (`false`).
Returns the progress values reported. -/
def sampleLoop (sampleRes : Nat → CalibResult) (sampleCount : Nat) :
    List Nat → List ℤ × Bool
  | [] => ([], true)
  | i :: rest =>
    if (sampleRes i).ok then
      let r := sampleLoop sampleRes sampleCount rest
      (sampleProgress sampleCount i :: r.1, r.2)
    else ([], false)

/-- Embedded `calibrateSticks` from the sources, abstracted over the driver
answers to begin / the five samples / end.  Returns the full sequence
of values passed to `progressCallback` and whether the run completed
(a `false` models the rethrown exception). -/
def calibrateSticksRun (beginRes : CalibResult) (sampleRes : Nat → CalibResult)
    (endRes : CalibResult) : List ℤ × Bool :=
  if !beginRes.ok then ([20], false)
  else
    let samples := sampleLoop sampleRes 5 (List.range 5)
    if !samples.2 then (20 :: 30 :: samples.1, false)
    else if !endRes.ok then (20 :: 30 :: samples.1 ++ [90], false)
    else (20 :: 30 :: samples.1 ++ [90, 100], true)

/-! ### Concrete example inputs (used to instantiate the theorems) -/

/-- A constant driver battery parser: 50%, on battery, no fault. -/
def exBattery : List Nat → Option BatteryInfo :=
  fun _ => some { bat_capacity := 50, cable_connected := false,
                  is_charging := false, is_error := false }

/-- A layout whose analog-trigger bytes lie beyond a 5-byte buffer. -/
def exCfgShort : InputConfig :=
  { buttonMap := [], dpadByte := 4, l2AnalogByte := 8, r2AnalogByte := 9 }

/-- A small layout fitting a 7-byte buffer, no touchpad. -/
def exCfgHistory : InputConfig :=
  { buttonMap := [], dpadByte := 4, l2AnalogByte := 5, r2AnalogByte := 6 }

/-- A one-button map. -/
def exMap : List ButtonMapping := [⟨"cross", 5, 0x20⟩]

/-- The snapshot left after recording `[10, 20, 30, 40, 8, 0, 15, 25]`
with `exMap`, d-pad byte 4, analog bytes 6 and 7. -/
def exSnapshot : ButtonStates :=
  { sticks := ⟨⟨stickValue 10, stickValue 20⟩, ⟨stickValue 30, stickValue 40⟩⟩,
    l2_analog := some 15, r2_analog := some 25, up := some false,
    down := some false, left := some false, right := some false,
    buttons := [("cross", false)] }

/-- The change-set of that first recording. -/
def exChanges : InputChanges :=
  { sticks := some ⟨⟨stickValue 10, stickValue 20⟩, ⟨stickValue 30, stickValue 40⟩⟩,
    l2_analog := some 15, r2_analog := some 25, up := some false,
    down := some false, left := some false, right := some false,
    buttons := [("cross", false)] }

/-- The snapshot left after recording `[0, 0, 0, 0, 8, 0, 10, 20]` with
`exMap`, d-pad byte 4, analog bytes 6 and 7. -/
def exSnapshotC6 : ButtonStates :=
  { sticks := ⟨⟨stickValue 0, stickValue 0⟩, ⟨stickValue 0, stickValue 0⟩⟩,
    l2_analog := some 10, r2_analog := some 20, up := some false,
    down := some false, left := some false, right := some false,
    buttons := [("cross", false)] }

/-- The change-set of that recording. -/
def exChangesC6 : InputChanges :=
  { sticks := some ⟨⟨stickValue 0, stickValue 0⟩, ⟨stickValue 0, stickValue 0⟩⟩,
    l2_analog := some 10, r2_analog := some 20, up := some false,
    down := some false, left := some false, right := some false,
    buttons := [("cross", false)] }

/-- A layout with a declared touchpad offset, fitting a 15-byte buffer. -/
def exCfgTouch : InputConfig :=
  { buttonMap := [], dpadByte := 4, l2AnalogByte := 5, r2AnalogByte := 6,
    touchpadOffset := some 7 }

/-- A 15-byte report carrying the spec's touchpad example at offset 7. -/
def exDataTouch : List Nat :=
  [0, 0, 0, 0, 0, 5, 9, 0x00, 0x34, 0x02, 0x50, 0, 0, 0, 0]

/-- The battery text `exBattery` renders to (trailing space included,
as `join(" ")` produces with an empty bolt slot). -/
def exBatTxt : String := "50% <i class=\"fa-solid fa-battery-half\"></i> "

/-- The two touch points decoded from `exDataTouch`. -/
def exTouchPts : List TouchPoint := [⟨true, 0, 564, 1280⟩, ⟨true, 0, 0, 0⟩]

/-- The rendered battery status with the given `changed` flag. -/
def exBatStatus (c : Bool) : BatteryStatus :=
  { bat_txt := exBatTxt, changed := c, bat_capacity := 50,
    cable_connected := false, is_charging := false, is_error := false }

/-- The snapshot after recording `exDataTouch` with `exCfgTouch`. -/
def exBtnStates : ButtonStates :=
  { sticks := ⟨⟨stickValue 0, stickValue 0⟩, ⟨stickValue 0, stickValue 0⟩⟩,
    l2_analog := some 5, r2_analog := some 9, up := some true,
    down := some false, left := some false, right := some false, buttons := [] }

/-- Manager state after the first `processControllerInput` on
`exDataTouch`. -/
def exS1 : ManagerInputState :=
  { button_states := exBtnStates, touchPoints := exTouchPts,
    batteryStatus := exBatStatus true, lastBatteryText := exBatTxt }

/-- Manager state after the second, identical call. -/
def exS2 : ManagerInputState := { exS1 with batteryStatus := exBatStatus false }

/-- Result of the first call. -/
def exR1 : ProcessedInputResult :=
  { changes := { sticks := some ⟨⟨stickValue 0, stickValue 0⟩,
                   ⟨stickValue 0, stickValue 0⟩⟩,
                 l2_analog := some 5, r2_analog := some 9, up := some true,
                 down := some false, left := some false, right := some false,
                 buttons := [] },
    touchPoints := exTouchPts, batteryStatus := exBatStatus true }

/-- Result of the second, identical call. -/
def exR2 : ProcessedInputResult :=
  { changes := emptyChanges, touchPoints := exTouchPts,
    batteryStatus := exBatStatus false }

/-! ### Helper lemmas about the tracker phases -/

theorem jsRound_eq_round (x : ℚ) : jsRound x = round x := by
  rw [jsRound, round_eq, Rat.floor_def, Rat.floor_def']

theorem sticksChanged_self (a : StickStates) : sticksChanged a a = false := by
  simp [sticksChanged]

theorem sticksChanged_eq_false {a b : StickStates} (h : sticksChanged a b = false) :
    a = b := by
  obtain ⟨⟨ax, ay⟩, ⟨bx, bz⟩⟩ := a
  obtain ⟨⟨cx, cy⟩, ⟨dx, dz⟩⟩ := b
  simp [sticksChanged] at h
  obtain ⟨h1, h2, h3, h4⟩ := h
  simp_all

theorem stickPhase_fst (ns : StickStates) (st : ButtonStates) (ch : InputChanges) :
    (stickPhase ns st ch).1 = { st with sticks := ns } := by
  unfold stickPhase
  split
  · rfl
  · next h =>
    simp only [Bool.not_eq_true] at h
    have hs := sticksChanged_eq_false h
    cases st
    simp_all

theorem stickPhase_skip {ns : StickStates} {st : ButtonStates} (h : st.sticks = ns)
    (ch : InputChanges) : stickPhase ns st ch = (st, ch) := by
  unfold stickPhase
  rw [h, sticksChanged_self]
  rfl

theorem l2Phase_fst (v : Nat) (st : ButtonStates) (ch : InputChanges) :
    (l2Phase v st ch).1 = { st with l2_analog := some v } := by
  unfold l2Phase
  split
  · rfl
  · next h =>
    simp only [bne_iff_ne, ne_eq, not_not] at h
    cases st
    simp_all

theorem l2Phase_skip {v : Nat} {st : ButtonStates} (h : st.l2_analog = some v)
    (ch : InputChanges) : l2Phase v st ch = (st, ch) := by
  unfold l2Phase
  rw [h]
  simp

theorem r2Phase_fst (v : Nat) (st : ButtonStates) (ch : InputChanges) :
    (r2Phase v st ch).1 = { st with r2_analog := some v } := by
  unfold r2Phase
  split
  · rfl
  · next h =>
    simp only [bne_iff_ne, ne_eq, not_not] at h
    cases st
    simp_all

theorem r2Phase_skip {v : Nat} {st : ButtonStates} (h : st.r2_analog = some v)
    (ch : InputChanges) : r2Phase v st ch = (st, ch) := by
  unfold r2Phase
  rw [h]
  simp

theorem r2Phase_fire {v : Nat} {st : ButtonStates} (h : st.r2_analog ≠ some v)
    (ch : InputChanges) :
    r2Phase v st ch = ({ st with r2_analog := some v }, { ch with r2_analog := some v }) := by
  unfold r2Phase
  have : (some v != st.r2_analog) = true := by
    simp [bne_iff_ne]
    exact fun hh => h hh.symm
  rw [this]
  simp

theorem dpadPhase_fst (hat : Nat) (st : ButtonStates) (ch : InputChanges) :
    (dpadPhase hat st ch).1 =
      { st with up := some (hatUp hat), right := some (hatRight hat),
                down := some (hatDown hat), left := some (hatLeft hat) } := by
  obtain ⟨s, l2, r2, u, d, lf, r, bt⟩ := st
  by_cases h1 : u = some (hatUp hat) <;>
    by_cases h2 : r = some (hatRight hat) <;>
      by_cases h3 : d = some (hatDown hat) <;>
        by_cases h4 : lf = some (hatLeft hat) <;>
          simp [dpadPhase, h1, h2, h3, h4]

theorem dpadPhase_skip {hat : Nat} {st : ButtonStates}
    (h1 : st.up = some (hatUp hat)) (h2 : st.right = some (hatRight hat))
    (h3 : st.down = some (hatDown hat)) (h4 : st.left = some (hatLeft hat))
    (ch : InputChanges) : dpadPhase hat st ch = (st, ch) := by
  simp [dpadPhase, h1, h2, h3, h4]

theorem lookupBtn_setBtn_self (l : List (String × Bool)) (k : String) (v : Bool) :
    lookupBtn (setBtn l k v) k = some v := by
  induction l with
  | nil => simp [setBtn, lookupBtn, List.lookup]
  | cons p rest ih =>
    obtain ⟨k', v'⟩ := p
    by_cases h : k' = k
    · simp [setBtn, h, lookupBtn, List.lookup]
    · simp only [setBtn, if_neg h]
      unfold lookupBtn at ih ⊢
      rw [List.lookup]
      have : (k == k') = false := by
        simp only [beq_eq_false_iff_ne, ne_eq]
        exact fun hh => h hh.symm
      rw [this]
      exact ih

theorem lookupBtn_setBtn_ne (l : List (String × Bool)) {k k' : String} (h : k' ≠ k)
    (v : Bool) : lookupBtn (setBtn l k v) k' = lookupBtn l k' := by
  induction l with
  | nil =>
    have : (k' == k) = false := by simp [beq_eq_false_iff_ne, h]
    simp [setBtn, lookupBtn, List.lookup, this]
  | cons p rest ih =>
    obtain ⟨k'', v''⟩ := p
    by_cases hk : k'' = k
    · subst hk
      have : (k' == k'') = false := by simp [beq_eq_false_iff_ne, h]
      simp [setBtn, lookupBtn, List.lookup, this]
    · simp only [setBtn, if_neg hk]
      unfold lookupBtn at ih ⊢
      simp only [List.lookup]
      cases hbeq : k' == k''
      · simp only [hbeq]
        exact ih
      · simp only [hbeq]

theorem buttonPhase_shape (data : List Nat) (m : List ButtonMapping) :
    ∀ (st : ButtonStates) (ch : InputChanges),
    ∃ bl cbl, (buttonPhase data m st ch).1 =
      ({ st with buttons := bl }, { ch with buttons := cbl }) := by
  induction m with
  | nil =>
    intro st ch
    exact ⟨st.buttons, ch.buttons, rfl⟩
  | cons btn rest ih =>
    intro st ch
    unfold buttonPhase
    split
    · exact ih st ch
    · cases hg : getUint8 data btn.byte with
      | none => exact ⟨st.buttons, ch.buttons, rfl⟩
      | some b =>
        dsimp only
        split
        · obtain ⟨bl, cbl, hsh⟩ := ih
            { st with buttons := setBtn st.buttons btn.name ((b &&& btn.mask) != 0) }
            { ch with buttons := setBtn ch.buttons btn.name ((b &&& btn.mask) != 0) }
          exact ⟨bl, cbl, hsh⟩
        · exact ih st ch

theorem buttonPhase_frame (data : List Nat) (m : List ButtonMapping) :
    ∀ (st : ButtonStates) (ch : InputChanges) (k : String),
    (∀ btn ∈ m, btn.name ≠ k) →
    lookupBtn ((buttonPhase data m st ch).1.1).buttons k = lookupBtn st.buttons k := by
  induction m with
  | nil => intro st ch k _; rfl
  | cons btn rest ih =>
    intro st ch k hk
    have hbtn : btn.name ≠ k := hk btn (List.mem_cons_self btn rest)
    have hrest : ∀ b ∈ rest, b.name ≠ k := fun b hb => hk b (List.mem_cons_of_mem btn hb)
    unfold buttonPhase
    split
    · exact ih st ch k hrest
    · cases hg : getUint8 data btn.byte with
      | none => rfl
      | some b =>
        dsimp only
        split
        · rw [ih _ _ k hrest]
          exact lookupBtn_setBtn_ne st.buttons (Ne.symm hbtn) _
        · exact ih st ch k hrest

theorem buttonPhase_lookup (data : List Nat) (m : List ButtonMapping) :
    ∀ (st : ButtonStates) (ch : InputChanges) (st' : ButtonStates) (ch' : InputChanges),
    (m.map (fun x => x.name)).Nodup →
    buttonPhase data m st ch = ((st', ch'), true) →
    ∀ btn ∈ m, btn.name ∉ dpadDirections →
      ∃ b, getUint8 data btn.byte = some b ∧
        lookupBtn st'.buttons btn.name = some ((b &&& btn.mask) != 0) := by
  induction m with
  | nil =>
    intro st ch st' ch' _ _ btn hbtn _
    simp at hbtn
  | cons bm rest ih =>
    intro st ch st' ch' hnd h btn hbtn hdp
    rw [List.map_cons, List.nodup_cons] at hnd
    obtain ⟨hn1, hn2⟩ := hnd
    have hrestne : ∀ bb ∈ rest, bb.name ≠ bm.name := by
      intro bb hbb he
      exact hn1 (he ▸ List.mem_map_of_mem (fun x => x.name) hbb)
    unfold buttonPhase at h
    by_cases hin : bm.name ∈ dpadDirections
    · rw [if_pos hin] at h
      rcases List.mem_cons.mp hbtn with rfl | hmem
      · exact absurd hin hdp
      · exact ih st ch st' ch' hn2 h btn hmem hdp
    · rw [if_neg hin] at h
      cases hg : getUint8 data bm.byte with
      | none =>
        rw [hg] at h
        simp at h
      | some b =>
        rw [hg] at h
        dsimp only at h
        by_cases hcond :
            (lookupBtn st.buttons bm.name != some ((b &&& bm.mask) != 0)) = true
        · rw [if_pos hcond] at h
          rcases List.mem_cons.mp hbtn with rfl | hmem
          · refine ⟨b, hg, ?_⟩
            have hfr := buttonPhase_frame data rest
              { st with buttons := setBtn st.buttons btn.name ((b &&& btn.mask) != 0) }
              { ch with buttons := setBtn ch.buttons btn.name ((b &&& btn.mask) != 0) }
              btn.name hrestne
            rw [h] at hfr
            simp only at hfr
            rw [hfr]
            exact lookupBtn_setBtn_self st.buttons btn.name ((b &&& btn.mask) != 0)
          · exact ih _ _ _ _ hn2 h btn hmem hdp
        · rw [if_neg hcond] at h
          rcases List.mem_cons.mp hbtn with rfl | hmem
          · refine ⟨b, hg, ?_⟩
            have hl : lookupBtn st.buttons btn.name = some ((b &&& btn.mask) != 0) := by
              simpa [bne_iff_ne, not_not] using hcond
            have hfr := buttonPhase_frame data rest st ch btn.name hrestne
            rw [h] at hfr
            simp only at hfr
            rw [hfr, hl]
          · exact ih _ _ _ _ hn2 h btn hmem hdp

theorem buttonPhase_skip (data : List Nat) (m : List ButtonMapping) :
    ∀ (st : ButtonStates) (ch : InputChanges),
    (∀ btn ∈ m, btn.name ∉ dpadDirections →
      ∃ b, getUint8 data btn.byte = some b ∧
        lookupBtn st.buttons btn.name = some ((b &&& btn.mask) != 0)) →
    buttonPhase data m st ch = ((st, ch), true) := by
  induction m with
  | nil => intro st ch _; rfl
  | cons bm rest ih =>
    intro st ch hrec
    unfold buttonPhase
    by_cases hin : bm.name ∈ dpadDirections
    · rw [if_pos hin]
      exact ih st ch (fun bb hbb => hrec bb (List.mem_cons_of_mem _ hbb))
    · rw [if_neg hin]
      obtain ⟨b, hg, hl⟩ := hrec bm (List.mem_cons_self _ _) hin
      rw [hg]
      dsimp only
      have hcond : (lookupBtn st.buttons bm.name != some ((b &&& bm.mask) != 0)) = false := by
        rw [hl]
        simp
      rw [hcond]
      simp only [Bool.false_eq_true, if_false]
      exact ih st ch (fun bb hbb hdp => hrec bb (List.mem_cons_of_mem _ hbb) hdp)

/-- A snapshot `st` that already records everything `_recordButtonStates`
would derive from `data` is a fixpoint: the call returns `st` unchanged
with an empty change-set. -/
theorem recordButtonStates_noChange {data : List Nat} {m : List ButtonMapping}
    {db l2b r2b : Nat} {st : ButtonStates} {b0 b1 b2 b3 lv rv hb : Nat}
    (hg0 : getUint8 data 0 = some b0) (hg1 : getUint8 data 1 = some b1)
    (hg2 : getUint8 data 2 = some b2) (hg3 : getUint8 data 3 = some b3)
    (hgl : getUint8 data l2b = some lv) (hgr : getUint8 data r2b = some rv)
    (hgd : getUint8 data db = some hb)
    (hs : st.sticks = ⟨⟨stickValue b0, stickValue b1⟩, ⟨stickValue b2, stickValue b3⟩⟩)
    (hsl : st.l2_analog = some lv) (hsr : st.r2_analog = some rv)
    (hu : st.up = some (hatUp (hb &&& 15))) (hrt : st.right = some (hatRight (hb &&& 15)))
    (hdn : st.down = some (hatDown (hb &&& 15))) (hlf : st.left = some (hatLeft (hb &&& 15)))
    (hbtn : ∀ btn ∈ m, btn.name ∉ dpadDirections →
      ∃ b, getUint8 data btn.byte = some b ∧
        lookupBtn st.buttons btn.name = some ((b &&& btn.mask) != 0)) :
    recordButtonStates data m db l2b r2b st = (st, some emptyChanges) := by
  have hbskip := buttonPhase_skip data m st emptyChanges hbtn
  unfold recordButtonStates
  rw [hg0, hg1, hg2, hg3]
  simp only []
  rw [stickPhase_skip hs]
  simp only []
  rw [hgl]
  simp only []
  rw [l2Phase_skip hsl]
  simp only []
  rw [hgr]
  simp only []
  rw [r2Phase_skip hsr]
  simp only []
  rw [hgd]
  simp only []
  rw [dpadPhase_skip hu hrt hdn hlf]
  simp only []
  rw [hbskip]

/-- Embedded `buttonPhase` touches only the dynamic `buttons` part of the
snapshot; the fixed fields pass through. -/
theorem buttonPhase_fields {data : List Nat} {m : List ButtonMapping}
    {st : ButtonStates} {ch : InputChanges} {st' : ButtonStates} {ch' : InputChanges}
    {flag : Bool} (hbp : buttonPhase data m st ch = ((st', ch'), flag)) :
    st'.sticks = st.sticks ∧ st'.l2_analog = st.l2_analog ∧
    st'.r2_analog = st.r2_analog ∧ st'.up = st.up ∧ st'.down = st.down ∧
    st'.left = st.left ∧ st'.right = st.right := by
  obtain ⟨bl, cbl, hsh⟩ := buttonPhase_shape data m st ch
  rw [hbp] at hsh
  have h1 : st' = { st with buttons := bl } := congrArg Prod.fst hsh
  rw [h1]
  simp

/-- Inversion of a successful `_recordButtonStates` call: all reads
succeeded and the returned snapshot records every value derived from
the buffer. -/
theorem recordButtonStates_inv {data : List Nat} {m : List ButtonMapping}
    {db l2b r2b : Nat} {st st1 : ButtonStates} {ch1 : InputChanges}
    (hnd : (m.map (fun x => x.name)).Nodup)
    (h : recordButtonStates data m db l2b r2b st = (st1, some ch1)) :
    ∃ b0 b1 b2 b3 lv rv hb,
      getUint8 data 0 = some b0 ∧ getUint8 data 1 = some b1 ∧
      getUint8 data 2 = some b2 ∧ getUint8 data 3 = some b3 ∧
      getUint8 data l2b = some lv ∧ getUint8 data r2b = some rv ∧
      getUint8 data db = some hb ∧
      st1.sticks = ⟨⟨stickValue b0, stickValue b1⟩, ⟨stickValue b2, stickValue b3⟩⟩ ∧
      st1.l2_analog = some lv ∧ st1.r2_analog = some rv ∧
      st1.up = some (hatUp (hb &&& 15)) ∧ st1.right = some (hatRight (hb &&& 15)) ∧
      st1.down = some (hatDown (hb &&& 15)) ∧ st1.left = some (hatLeft (hb &&& 15)) ∧
      ∀ btn ∈ m, btn.name ∉ dpadDirections →
        ∃ b, getUint8 data btn.byte = some b ∧
          lookupBtn st1.buttons btn.name = some ((b &&& btn.mask) != 0) := by
  unfold recordButtonStates at h
  split at h
  next b0 b1 b2 b3 hg0 hg1 hg2 hg3 =>
    split at h
    next hgl => simp at h
    next lv hgl =>
      split at h
      next hgr => simp at h
      next rv hgr =>
        split at h
        next hgd => simp at h
        next hb hgd =>
          simp only [] at h
          rw [stickPhase_fst, l2Phase_fst, r2Phase_fst, dpadPhase_fst] at h
          split at h
          next stX chX hbp =>
            injection h with hst hsnd
            injection hsnd with hch
            subst hst
            subst hch
            obtain ⟨hfs, hfl2, hfr2, hfup, hfdn, hflf, hfrt⟩ := buttonPhase_fields hbp
            simp only at hfs hfl2 hfr2 hfup hfdn hflf hfrt
            exact ⟨b0, b1, b2, b3, lv, rv, hb, hg0, hg1, hg2, hg3, hgl, hgr, hgd,
              hfs, hfl2, hfr2, hfup, hfrt, hfdn, hflf,
              buttonPhase_lookup data m _ _ _ _ hnd hbp⟩
          next stX chX hbp => simp at h
  next => simp at h

/-- A snapshot that records everything except the right-trigger value
yields a change-set containing exactly `r2_analog`, and only that
snapshot field is updated. -/
theorem recordButtonStates_r2_change {data : List Nat} {m : List ButtonMapping}
    {db l2b r2b : Nat} {st : ButtonStates} {b0 b1 b2 b3 lv v2 hb : Nat}
    (hg0 : getUint8 data 0 = some b0) (hg1 : getUint8 data 1 = some b1)
    (hg2 : getUint8 data 2 = some b2) (hg3 : getUint8 data 3 = some b3)
    (hgl : getUint8 data l2b = some lv) (hgr : getUint8 data r2b = some v2)
    (hgd : getUint8 data db = some hb)
    (hs : st.sticks = ⟨⟨stickValue b0, stickValue b1⟩, ⟨stickValue b2, stickValue b3⟩⟩)
    (hsl : st.l2_analog = some lv) (hsr : st.r2_analog ≠ some v2)
    (hu : st.up = some (hatUp (hb &&& 15))) (hrt : st.right = some (hatRight (hb &&& 15)))
    (hdn : st.down = some (hatDown (hb &&& 15))) (hlf : st.left = some (hatLeft (hb &&& 15)))
    (hbtn : ∀ btn ∈ m, btn.name ∉ dpadDirections →
      ∃ b, getUint8 data btn.byte = some b ∧
        lookupBtn st.buttons btn.name = some ((b &&& btn.mask) != 0)) :
    recordButtonStates data m db l2b r2b st =
      ({ st with r2_analog := some v2 },
       some { emptyChanges with r2_analog := some v2 }) := by
  have hu' : ({ st with r2_analog := some v2 } : ButtonStates).up =
      some (hatUp (hb &&& 15)) := hu
  have hrt' : ({ st with r2_analog := some v2 } : ButtonStates).right =
      some (hatRight (hb &&& 15)) := hrt
  have hdn' : ({ st with r2_analog := some v2 } : ButtonStates).down =
      some (hatDown (hb &&& 15)) := hdn
  have hlf' : ({ st with r2_analog := some v2 } : ButtonStates).left =
      some (hatLeft (hb &&& 15)) := hlf
  have hbtn' : ∀ btn ∈ m, btn.name ∉ dpadDirections →
      ∃ b, getUint8 data btn.byte = some b ∧
        lookupBtn ({ st with r2_analog := some v2 } : ButtonStates).buttons btn.name =
          some ((b &&& btn.mask) != 0) := hbtn
  have hbskip := buttonPhase_skip data m { st with r2_analog := some v2 }
    { emptyChanges with r2_analog := some v2 } hbtn'
  unfold recordButtonStates
  rw [hg0, hg1, hg2, hg3]
  simp only []
  rw [stickPhase_skip hs]
  simp only []
  rw [hgl]
  simp only []
  rw [l2Phase_skip hsl]
  simp only []
  rw [hgr]
  simp only []
  rw [r2Phase_fire hsr]
  simp only []
  rw [hgd]
  simp only []
  rw [dpadPhase_skip hu' hrt' hdn' hlf']
  simp only []
  rw [hbskip]

/-- One touch point decodes to the wire-format fields whenever its four
bytes are readable. -/
theorem parseTouchPoint_eq {data : List Nat} {base b0 b1 b2 b3 : Nat}
    (h0 : getUint8 data base = some b0) (h1 : getUint8 data (base + 1) = some b1)
    (h2 : getUint8 data (base + 2) = some b2) (h3 : getUint8 data (base + 3) = some b3) :
    parseTouchPoint data base =
      some { active := (b0 &&& 0x80) == 0, id := b0 &&& 0x7f,
             x := ((b2 &&& 0x0f) <<< 8) ||| b1,
             y := (b3 <<< 4) ||| (b2 >>> 4) } := by
  unfold parseTouchPoint
  rw [h0, h1, h2, h3]

/-- Whatever else happens to the call, once the four stick bytes are
readable the snapshot ends up holding their mapped values. -/
theorem recordButtonStates_sticks {data : List Nat} {m : List ButtonMapping}
    {db l2b r2b : Nat} {st : ButtonStates} {b0 b1 b2 b3 : Nat}
    (hg0 : getUint8 data 0 = some b0) (hg1 : getUint8 data 1 = some b1)
    (hg2 : getUint8 data 2 = some b2) (hg3 : getUint8 data 3 = some b3) :
    (recordButtonStates data m db l2b r2b st).1.sticks =
      ⟨⟨stickValue b0, stickValue b1⟩, ⟨stickValue b2, stickValue b3⟩⟩ := by
  unfold recordButtonStates
  rw [hg0, hg1, hg2, hg3]
  simp only []
  split
  next hgl => simp [stickPhase_fst]
  next lv hgl =>
    split
    next hgr => simp [l2Phase_fst, stickPhase_fst]
    next rv hgr =>
      split
      next hgd => simp [r2Phase_fst, l2Phase_fst, stickPhase_fst]
      next hb hgd =>
        split
        next stX chX hbp =>
          have hf := (buttonPhase_fields hbp).1
          simp only []
          rw [hf]
          simp [dpadPhase_fst, r2Phase_fst, l2Phase_fst, stickPhase_fst]
        next stX chX hbp =>
          have hf := (buttonPhase_fields hbp).1
          simp only []
          rw [hf]
          simp [dpadPhase_fst, r2Phase_fst, l2Phase_fst, stickPhase_fst]

unseal Rat.mul Rat.add Rat.sub Rat.inv Rat.ofScientific in
set_option maxRecDepth 4000 in
/-- All 256 byte values map into `[-1, 1]`. -/
theorem stickValue_bounds : ∀ v : Nat, v < 256 → -1 ≤ stickValue v ∧ stickValue v ≤ 1 := by
  decide

unseal Rat.mul Rat.add Rat.sub Rat.inv Rat.ofScientific in
/-- The three endpoint bytes of the stick mapping. -/
theorem stickValue_endpoints :
    stickValue 0 = -1 ∧ stickValue 255 = 1 ∧ stickValue 128 = 0 := by
  decide

unseal Rat.mul Rat.add Rat.sub Rat.inv Rat.ofScientific in
/-- The five reported sampling progress values of the reference flow. -/
theorem sampleProgress_vals :
    sampleProgress 5 0 = 40 ∧ sampleProgress 5 1 = 50 ∧ sampleProgress 5 2 = 60 ∧
    sampleProgress 5 3 = 70 ∧ sampleProgress 5 4 = 80 := by
  decide

/-- The sampling loop on five ok results reports `40, 50, 60, 70, 80`. -/
theorem sampleLoop_ok {s : Nat → CalibResult} (h0 : (s 0).ok = true)
    (h1 : (s 1).ok = true) (h2 : (s 2).ok = true) (h3 : (s 3).ok = true)
    (h4 : (s 4).ok = true) :
    sampleLoop s 5 (List.range 5) = ([40, 50, 60, 70, 80], true) := by
  have e : List.range 5 = [0, 1, 2, 3, 4] := rfl
  rw [e]
  simp [sampleLoop, h0, h1, h2, h3, h4, sampleProgress_vals.1,
    sampleProgress_vals.2.1, sampleProgress_vals.2.2.1,
    sampleProgress_vals.2.2.2.1, sampleProgress_vals.2.2.2.2]

/-! ### Claim theorems -/

/-- C1: for every range-calibration end/on-close call whose driver
result is not ok but carries a device error code in the fixed set
\x7b3, 4, 5\x7d, `calibrateRangeOnClose` returns a success result with
the distinguishing "window closed" message; for every not-ok result
with any other code (or no code) it returns a failure result. -/
theorem C1_rangeOnClose_expected_codes (l : String → String) (res : CalibResult)
    (flag : Option Bool) (hok : res.ok = false) :
    (∀ c, res.code = some c → c ∈ EXPECTED_CALIBRATION_ERROR_CODES →
      (calibrateRangeOnClose l (some res) flag).1 =
        { success := true, message := l "Range calibration window closed" }) ∧
    ((∀ c, res.code = some c → c ∉ EXPECTED_CALIBRATION_ERROR_CODES) →
      (calibrateRangeOnClose l (some res) flag).1.success = false) := by
  constructor
  · intro c hc hmem
    simp only [EXPECTED_CALIBRATION_ERROR_CODES, List.mem_cons, List.not_mem_nil,
      or_false] at hmem
    rcases hmem with rfl | rfl | rfl <;>
      simp [calibrateRangeOnClose, jsOk, hok, jsCode, hc, jsTruthyNum,
        EXPECTED_CALIBRATION_ERROR_CODES]
  · intro hnc
    cases hc : res.code with
    | none =>
      simp [calibrateRangeOnClose, jsOk, hok, jsCode, hc, jsTruthyNum]
    | some c =>
      have hm := hnc c hc
      by_cases h0 : c = 0
      · subst h0
        simp [calibrateRangeOnClose, jsOk, hok, jsCode, hc, jsTruthyNum]
      · simp [calibrateRangeOnClose, jsOk, hok, jsCode, hc, jsTruthyNum, h0, hm]

/-- C1 witness: driver code 4 on a failed range-calibration end is
remapped to a successful "window closed" response. -/
theorem C1_witness :
    (calibrateRangeOnClose id (some { ok := false, code := some 4 }) none).1 =
      { success := true, message := "Range calibration window closed" } :=
  (C1_rangeOnClose_expected_codes id { ok := false, code := some 4 } none rfl).1
    4 rfl (by decide)

/-- C4: a failed driver `nvsLock` raises an error carrying the original
failure detail and performs no NVS status re-query (the callback state
is unchanged); a successful one re-queries NVS status before
returning. -/
theorem C4_nvsLock_failure_no_requery (l : String → String) (res : NvResult)
    (nv : NvStatus) (st : NvCallbackState) :
    (res.ok = false →
      nvsLock l res nv st =
        (st, Except.error (l "NVS Lock failed: " ++ jsString res.error))) ∧
    (res.ok = true →
      nvsLock l res nv st = ({ lastHandled := some nv }, Except.ok res)) := by
  constructor
  · intro h
    simp [nvsLock, h]
  · intro h
    simp [nvsLock, queryNvStatus, h]

/-- C4 witness: a concrete failed lock leaves the callback state
untouched and carries the driver's error text; a concrete successful
lock re-queries. -/
theorem C4_witness :
    nvsLock id { ok := false, error := some "boom" }
        { status := "locked", locked := true } ⟨none⟩ =
      (⟨none⟩, Except.error ("NVS Lock failed: " ++ "boom")) ∧
    nvsLock id { ok := true } { status := "unlocked", locked := false } ⟨none⟩ =
      (⟨some { status := "unlocked", locked := false }⟩, Except.ok { ok := true }) :=
  ⟨(C4_nvsLock_failure_no_requery id { ok := false, error := some "boom" }
      { status := "locked", locked := true } ⟨none⟩).1 rfl,
   (C4_nvsLock_failure_no_requery id { ok := true }
      { status := "unlocked", locked := false } ⟨none⟩).2 rfl⟩

/-- C10: on a not-ok range-calibration end the `has_changes_to_write`
flag is left unchanged (in particular on the remapped-success path);
only the ok path sets it to true. -/
theorem C10_rangeOnClose_flag (l : String → String) (res : Option CalibResult)
    (flag : Option Bool) :
    (jsOk res = false → (calibrateRangeOnClose l res flag).2 = flag) ∧
    (jsOk res = true → (calibrateRangeOnClose l res flag).2 = some true) := by
  constructor
  · intro h
    unfold calibrateRangeOnClose
    rw [h]
    simp only [Bool.false_eq_true, if_false]
    split <;> rfl
  · intro h
    unfold calibrateRangeOnClose
    rw [h]
    simp only [if_true]
    unfold setHasChangesToWrite
    split
    · next he => exact he.symm
    · rfl

/-- C10 witness: remapped-success (code 4) leaves the flag `none`; a
successful end sets it to `some true`. -/
theorem C10_witness :
    (calibrateRangeOnClose id (some { ok := false, code := some 4 }) none).2 = none ∧
    (calibrateRangeOnClose id (some { ok := true }) none).2 = some true :=
  ⟨(C10_rangeOnClose_flag id (some { ok := false, code := some 4 }) none).1 rfl,
   (C10_rangeOnClose_flag id (some { ok := true }) none).2 rfl⟩

/-- C2: each of the two touch points (4 bytes at `offset + 4 * i`)
decodes to `active = (byte0 high bit == 0)`, `id = low 7 bits`,
`x = ((byte2 & 0x0F) << 8) | byte1`, `y = (byte3 << 4) | (byte2 >> 4)`;
in particular point bytes `[0x00, 0x34, 0x02, 0x50]` decode to
`(active, 0, 564, 1280)`. -/
theorem C2_touchpad_decode (data : List Nat) (offset i : Nat) (ps : List TouchPoint)
    (b0 b1 b2 b3 : Nat)
    (hp : parseTouchPoints data offset = some ps) (hi : i < 2)
    (h0 : getUint8 data (offset + 4 * i) = some b0)
    (h1 : getUint8 data (offset + 4 * i + 1) = some b1)
    (h2 : getUint8 data (offset + 4 * i + 2) = some b2)
    (h3 : getUint8 data (offset + 4 * i + 3) = some b3) :
    ps.get? i = some { active := (b0 &&& 0x80) == 0, id := b0 &&& 0x7f,
                       x := ((b2 &&& 0x0f) <<< 8) ||| b1,
                       y := (b3 <<< 4) ||| (b2 >>> 4) } ∧
    parseTouchPoints [0x00, 0x34, 0x02, 0x50, 0, 0, 0, 0] 0 =
      some [{ active := true, id := 0, x := 564, y := 1280 },
            { active := true, id := 0, x := 0, y := 0 }] := by
  refine ⟨?_, by decide⟩
  unfold parseTouchPoints at hp
  interval_cases i
  · have e0 : offset + 0 * 4 = offset + 4 * 0 := by ring
    rw [e0, parseTouchPoint_eq h0 h1 h2 h3] at hp
    cases hq : parseTouchPoint data (offset + 1 * 4) with
    | none => rw [hq] at hp; simp at hp
    | some q =>
      rw [hq] at hp
      simp only [Option.some.injEq] at hp
      rw [← hp]
      rfl
  · have e1 : offset + 1 * 4 = offset + 4 * 1 := by ring
    rw [e1, parseTouchPoint_eq h0 h1 h2 h3] at hp
    cases hq : parseTouchPoint data (offset + 0 * 4) with
    | none => rw [hq] at hp; simp at hp
    | some q =>
      rw [hq] at hp
      simp only [Option.some.injEq] at hp
      rw [← hp]
      rfl

/-- C2 witness: the concrete touchpad report from the spec decodes as
stated. -/
theorem C2_witness :
    ([{ active := true, id := 0, x := 564, y := 1280 },
      { active := true, id := 0, x := 0, y := 0 }] : List TouchPoint).get? 0 =
      some { active := (0x00 &&& 0x80) == 0, id := 0x00 &&& 0x7f,
             x := ((0x02 &&& 0x0f) <<< 8) ||| 0x34,
             y := (0x50 <<< 4) ||| (0x02 >>> 4) } :=
  (C2_touchpad_decode [0x00, 0x34, 0x02, 0x50, 0, 0, 0, 0] 0 0
    [{ active := true, id := 0, x := 564, y := 1280 },
     { active := true, id := 0, x := 0, y := 0 }]
    0x00 0x34 0x02 0x50 (by decide) (by decide) rfl rfl rfl rfl).1

/-- C3: the four stick values are read from fixed byte offsets 0-3 and
each byte `v` maps to `round(((v - 127.5) / 128) * 100) / 100`, a
two-decimal value in `[-1, 1]`; byte 0 maps to `-1.00`, byte 255 to
`1.00`, byte 128 to `0.00`. -/
theorem C3_stick_mapping (data : List Nat) (m : List ButtonMapping)
    (db l2b r2b : Nat) (st : ButtonStates) (b0 b1 b2 b3 : Nat)
    (hg0 : getUint8 data 0 = some b0) (hg1 : getUint8 data 1 = some b1)
    (hg2 : getUint8 data 2 = some b2) (hg3 : getUint8 data 3 = some b3) :
    (recordButtonStates data m db l2b r2b st).1.sticks =
      ⟨⟨stickValue b0, stickValue b1⟩, ⟨stickValue b2, stickValue b3⟩⟩ ∧
    (∀ v : Nat, v ≤ 255 →
      -1 ≤ stickValue v ∧ stickValue v ≤ 1 ∧ ∃ k : ℤ, stickValue v = (k : ℚ) / 100) ∧
    (∀ v : Nat, stickValue v = ((round (((v : ℚ) - 127.5) / 128 * 100) : ℤ) : ℚ) / 100) ∧
    stickValue 0 = -1 ∧ stickValue 255 = 1 ∧ stickValue 128 = 0 := by
  refine ⟨recordButtonStates_sticks hg0 hg1 hg2 hg3, ?_, ?_, stickValue_endpoints.1,
    stickValue_endpoints.2.1, stickValue_endpoints.2.2⟩
  · intro v hv
    obtain ⟨hl, hr⟩ := stickValue_bounds v (by omega)
    exact ⟨hl, hr, jsRound (((v : ℚ) - 127.5) / 128 * 100), rfl⟩
  · intro v
    rw [stickValue, jsRound_eq_round]

/-- C3 witness: recording the buffer `[0, 255, 128, 37]` stores the
mapped stick values, with the endpoint bytes mapping to -1, 1, 0. -/
theorem C3_witness :
    (recordButtonStates [0, 255, 128, 37] [] 9 9 9 initialButtonStates).1.sticks =
      ⟨⟨stickValue 0, stickValue 255⟩, ⟨stickValue 128, stickValue 37⟩⟩ ∧
    stickValue 0 = -1 ∧ stickValue 255 = 1 ∧ stickValue 128 = 0 :=
  have h := C3_stick_mapping [0, 255, 128, 37] [] 9 9 9 initialButtonStates
    0 255 128 37 rfl rfl rfl rfl
  ⟨h.1, h.2.2.2.1, h.2.2.2.2.1, h.2.2.2.2.2⟩

/-- C5: recording the same buffer twice in a row yields an empty
change-set the second time (no stick, button, d-pad or analog-trigger
fields), for layouts whose button names are distinct and distinct from
the snapshot's fixed keys. -/
theorem C5_tracker_idempotent (data : List Nat) (m : List ButtonMapping)
    (db l2b r2b : Nat) (st st1 : ButtonStates) (ch1 : InputChanges)
    (hnd : (m.map (fun x => x.name)).Nodup)
    (hres : ∀ btn ∈ m, btn.name ∉ (["sticks", "l2_analog", "r2_analog"] : List String))
    (h : recordButtonStates data m db l2b r2b st = (st1, some ch1)) :
    recordButtonStates data m db l2b r2b st1 = (st1, some emptyChanges) := by
  obtain ⟨b0, b1, b2, b3, lv, rv, hb, hg0, hg1, hg2, hg3, hgl, hgr, hgd,
    hfs, hfl2, hfr2, hfup, hfrt, hfdn, hflf, hbtn⟩ := recordButtonStates_inv hnd h
  exact recordButtonStates_noChange hg0 hg1 hg2 hg3 hgl hgr hgd hfs hfl2 hfr2
    hfup hfrt hfdn hflf hbtn

unseal Rat.mul Rat.add Rat.sub Rat.inv Rat.ofScientific in
/-- C5 witness: replaying `[10, 20, 30, 40, 8, 0, 15, 25]` over the
snapshot its first recording produced yields the empty change-set. -/
theorem C5_witness :
    recordButtonStates [10, 20, 30, 40, 8, 0, 15, 25] exMap 4 6 7 exSnapshot =
      (exSnapshot, some emptyChanges) :=
  C5_tracker_idempotent [10, 20, 30, 40, 8, 0, 15, 25] exMap 4 6 7
    initialButtonStates exSnapshot exChanges (by decide) (by decide) (by decide)

/-- C6: if the second buffer differs from the already-recorded first
buffer only in the right-trigger analog byte (which aliases no other
referenced offset), the second recording's change-set contains exactly
`r2_analog`, and only that snapshot field changes. -/
theorem C6_r2_isolation (data1 data2 : List Nat) (m : List ButtonMapping)
    (db l2b r2b : Nat) (st st1 : ButtonStates) (ch1 : InputChanges) (v1 v2 : Nat)
    (hnd : (m.map (fun x => x.name)).Nodup)
    (hres : ∀ btn ∈ m, btn.name ∉ (["sticks", "l2_analog", "r2_analog"] : List String))
    (hr0 : r2b ≠ 0) (hr1 : r2b ≠ 1) (hr2b2 : r2b ≠ 2) (hr3 : r2b ≠ 3)
    (hrl : r2b ≠ l2b) (hrd : r2b ≠ db) (hrm : ∀ btn ∈ m, btn.byte ≠ r2b)
    (hset : data2 = data1.set r2b v2)
    (hv1 : getUint8 data1 r2b = some v1) (hne : v2 ≠ v1)
    (h : recordButtonStates data1 m db l2b r2b st = (st1, some ch1)) :
    recordButtonStates data2 m db l2b r2b st1 =
      ({ st1 with r2_analog := some v2 },
       some { emptyChanges with r2_analog := some v2 }) := by
  obtain ⟨b0, b1, b2, b3, lv, rv, hb, hg0, hg1, hg2, hg3, hgl, hgr, hgd,
    hfs, hfl2, hfr2, hfup, hfrt, hfdn, hflf, hbtn⟩ := recordButtonStates_inv hnd h
  have hagree : ∀ i, i ≠ r2b → getUint8 data2 i = getUint8 data1 i := by
    intro i hi
    rw [hset]
    unfold getUint8
    exact List.get?_set_ne v2 data1 (Ne.symm hi)
  have hlen : r2b < data1.length := by
    obtain ⟨hl, _⟩ := List.get?_eq_some.mp hv1
    exact hl
  have hv2 : getUint8 data2 r2b = some v2 := by
    rw [hset]
    unfold getUint8
    exact List.get?_set_eq_of_lt v2 hlen
  have hrv : rv = v1 := by
    rw [hgr] at hv1
    exact Option.some.inj hv1
  have hg0' : getUint8 data2 0 = some b0 := (hagree 0 (Ne.symm hr0)).trans hg0
  have hg1' : getUint8 data2 1 = some b1 := (hagree 1 (Ne.symm hr1)).trans hg1
  have hg2' : getUint8 data2 2 = some b2 := (hagree 2 (Ne.symm hr2b2)).trans hg2
  have hg3' : getUint8 data2 3 = some b3 := (hagree 3 (Ne.symm hr3)).trans hg3
  have hgl' : getUint8 data2 l2b = some lv := (hagree l2b (Ne.symm hrl)).trans hgl
  have hgd' : getUint8 data2 db = some hb := (hagree db (Ne.symm hrd)).trans hgd
  have hbtn2 : ∀ btn ∈ m, btn.name ∉ dpadDirections →
      ∃ b, getUint8 data2 btn.byte = some b ∧
        lookupBtn st1.buttons btn.name = some ((b &&& btn.mask) != 0) := by
    intro btn hbm hdp
    obtain ⟨b, hgb, hlb⟩ := hbtn btn hbm hdp
    exact ⟨b, (hagree btn.byte (hrm btn hbm)).trans hgb, hlb⟩
  have hsr2 : st1.r2_analog ≠ some v2 := by
    rw [hfr2, hrv]
    intro hc
    exact hne (Option.some.inj hc).symm
  exact recordButtonStates_r2_change hg0' hg1' hg2' hg3' hgl' hv2 hgd' hfs hfl2
    hsr2 hfup hfrt hfdn hflf hbtn2

unseal Rat.mul Rat.add Rat.sub Rat.inv Rat.ofScientific in
/-- C6 witness: bumping only byte 7 (the right trigger) from 20 to 30
after recording `[0, 0, 0, 0, 8, 0, 10, 20]` emits exactly
`r2_analog`. -/
theorem C6_witness :
    recordButtonStates [0, 0, 0, 0, 8, 0, 10, 30] exMap 4 6 7 exSnapshotC6 =
      ({ exSnapshotC6 with r2_analog := some 30 },
       some { emptyChanges with r2_analog := some 30 }) :=
  C6_r2_isolation [0, 0, 0, 0, 8, 0, 10, 20] [0, 0, 0, 0, 8, 0, 10, 30] exMap
    4 6 7 initialButtonStates exSnapshotC6 exChangesC6 20 30
    (by decide) (by decide) (by decide) (by decide) (by decide) (by decide)
    (by decide) (by decide) (by decide) (by decide) rfl (by decide) (by decide)

/-- C7: the happy-path automated stick-center calibration (begin, 5
samples, end, all ok) reports the monotonically increasing progress
sequence 20, 30, 40, 50, 60, 70, 80, 90, 100, within 0..100. -/
theorem C7_calibrateSticks_progress (b e : CalibResult) (s : Nat → CalibResult)
    (hb : b.ok = true) (hs : ∀ i, i < 5 → (s i).ok = true) (he : e.ok = true) :
    (calibrateSticksRun b s e).1 = [20, 30, 40, 50, 60, 70, 80, 90, 100] ∧
    List.Chain' (· < ·) (calibrateSticksRun b s e).1 ∧
    (calibrateSticksRun b s e).1.head? = some 20 ∧
    (calibrateSticksRun b s e).1.getLast? = some 100 ∧
    ∀ p ∈ (calibrateSticksRun b s e).1, 0 ≤ p ∧ p ≤ 100 := by
  have hrun : calibrateSticksRun b s e =
      ([20, 30, 40, 50, 60, 70, 80, 90, 100], true) := by
    unfold calibrateSticksRun
    rw [sampleLoop_ok (hs 0 (by omega)) (hs 1 (by omega)) (hs 2 (by omega))
      (hs 3 (by omega)) (hs 4 (by omega)), hb, he]
    rfl
  rw [hrun]
  refine ⟨rfl, ?_, rfl, by decide, by decide⟩
  norm_num [List.chain'_cons]

/-- C7 witness: a fully successful concrete run reports exactly
20..100. -/
theorem C7_witness :
    (calibrateSticksRun { ok := true } (fun _ => { ok := true }) { ok := true }).1 =
      [20, 30, 40, 50, 60, 70, 80, 90, 100] :=
  (C7_calibrateSticks_progress { ok := true } { ok := true } (fun _ => { ok := true })
    rfl (fun _ _ => rfl) rfl).1

/-- C8 (amended): a buffer shorter than the 4-byte stick region makes
decoding fail with the (only) `MalformedReport` failure mode and leaves
the manager state, tracker snapshot included, unchanged.  (For longer
buffers that are still shorter than the maximum referenced offset the
decode also fails, but fields read before the out-of-range access may
already have been updated -- see the counterexample.) -/
theorem C8_short_buffer_malformed (cfg : InputConfig)
    (pb : List Nat → Option BatteryInfo) (l : String → String)
    (data : List Nat) (st : ManagerInputState) (hshort : data.length < 4) :
    processControllerInput cfg pb l data st = (st, none) := by
  have h3 : getUint8 data 3 = none := by
    unfold getUint8
    exact List.get?_eq_none.mpr (by omega)
  have hrec : recordButtonStates data cfg.buttonMap cfg.dpadByte cfg.l2AnalogByte
      cfg.r2AnalogByte st.button_states = (st.button_states, none) := by
    unfold recordButtonStates
    rw [h3]
    cases getUint8 data 0 <;> cases getUint8 data 1 <;>
      cases getUint8 data 2 <;> rfl
  unfold processControllerInput
  rw [hrec]

/-- C8 witness: a 2-byte buffer fails the decode and leaves the state
untouched. -/
theorem C8_witness :
    processControllerInput exCfgShort exBattery id [1, 2] initialManagerInputState =
      (initialManagerInputState, none) :=
  C8_short_buffer_malformed exCfgShort exBattery id [1, 2]
    initialManagerInputState (by decide)

unseal Rat.mul Rat.add Rat.sub Rat.inv Rat.ofScientific in
/-- C8 counterexample: the 5-byte buffer `[255, 255, 255, 255, 0]` is
shorter than the maximum offset `exCfgShort` references (its analog
bytes 8 and 9), so the decode fails -- yet the tracker's stick snapshot
has already been overwritten by the time the failing read happens,
refuting the claim that such a failure never touches the stored
snapshot. -/
theorem C8_counterexample :
    (processControllerInput exCfgShort exBattery id [255, 255, 255, 255, 0]
      initialManagerInputState).2 = none ∧
    (processControllerInput exCfgShort exBattery id [255, 255, 255, 255, 0]
      initialManagerInputState).1.button_states.sticks ≠
      initialManagerInputState.button_states.sticks := by
  decide

/-- C9 (amended): the decode path is a function of the bytes, the
layout and the current tracker state; when the layout declares a
(truthy) touchpad offset, the touch points and every battery field
except the `changed` flag are independent of that state -- but the
emitted change-set and the `changed` flag do depend on call history
(see the counterexample). -/
theorem C9_decode_functional (cfg : InputConfig) (pb : List Nat → Option BatteryInfo)
    (l : String → String) (data : List Nat) (st st' s1 s1' : ManagerInputState)
    (r r' : ProcessedInputResult)
    (htp : jsTruthyNum cfg.touchpadOffset = true)
    (h : processControllerInput cfg pb l data st = (s1, some r))
    (h' : processControllerInput cfg pb l data st' = (s1', some r')) :
    r.touchPoints = r'.touchPoints ∧
    r.batteryStatus.bat_txt = r'.batteryStatus.bat_txt ∧
    r.batteryStatus.bat_capacity = r'.batteryStatus.bat_capacity ∧
    r.batteryStatus.cable_connected = r'.batteryStatus.cable_connected ∧
    r.batteryStatus.is_charging = r'.batteryStatus.is_charging ∧
    r.batteryStatus.is_error = r'.batteryStatus.is_error := by
  unfold processControllerInput at h h'
  simp only [] at h h'
  rw [if_pos htp] at h h'
  split at h
  next hrec => simp at h
  next changes hrec =>
    split at h
    next htch => simp at h
    next tp htch =>
      split at h
      next hpb => simp at h
      next info hpb =>
        split at h'
        next hrec2 => simp at h'
        next changes2 hrec2 =>
          split at h'
          next htch2 => simp at h'
          next tp2 htch2 =>
            split at h'
            next hpb2 => simp at h'
            next info2 hpb2 =>
              have htpeq : tp = tp2 := by
                rw [htch] at htch2
                exact Option.some.inj htch2
              have hinfoeq : info = info2 := by
                rw [hpb] at hpb2
                exact Option.some.inj hpb2
              injection h with ha hb
              injection hb with hr
              injection h' with ha2 hb2
              injection hb2 with hr2
              subst hr
              subst hr2
              subst htpeq
              subst hinfoeq
              simp [parseBatteryStatusStep]

unseal Rat.mul Rat.add Rat.sub Rat.inv Rat.ofScientific in
/-- C9 witness: two calls on the same bytes and layout from different
tracker states (fresh, and after the first call) agree on touch points
and on all battery fields except `changed`. -/
theorem C9_witness :
    exR1.touchPoints = exR2.touchPoints ∧
    exR1.batteryStatus.bat_txt = exR2.batteryStatus.bat_txt ∧
    exR1.batteryStatus.bat_capacity = exR2.batteryStatus.bat_capacity ∧
    exR1.batteryStatus.cable_connected = exR2.batteryStatus.cable_connected ∧
    exR1.batteryStatus.is_charging = exR2.batteryStatus.is_charging ∧
    exR1.batteryStatus.is_error = exR2.batteryStatus.is_error :=
  C9_decode_functional exCfgTouch exBattery id exDataTouch
    initialManagerInputState exS1 exS1 exS2 exR1 exR2 rfl (by decide) (by decide)

unseal Rat.mul Rat.add Rat.sub Rat.inv Rat.ofScientific in
/-- C9 counterexample: the same bytes and layout at two successive
points of a call sequence produce different outputs (the first call
emits a change-set and a battery-text change, the second does not),
refuting history-independence of the full decoded output. -/
theorem C9_counterexample :
    (processControllerInput exCfgHistory exBattery id [0, 0, 0, 0, 0, 5, 9]
      initialManagerInputState).2 ≠
    (processControllerInput exCfgHistory exBattery id [0, 0, 0, 0, 0, 5, 9]
      (processControllerInput exCfgHistory exBattery id [0, 0, 0, 0, 0, 5, 9]
        initialManagerInputState).1).2 := by
  decide

end DSTools
